import Mathlib

/-
  Verification of the connection-lifecycle core of sshesame (src/main.go).

  The program is embedded shallowly as trace-producing functions: each embedded
  operation returns the list of observable events it performs, in program order.
  External library calls (file reads, key parsing, key generation, SHA-256) are
  modelled as oracle parameters so that theorems quantify over their outcomes.
-/

namespace Sshesame

/-- Log levels of the logrus calls appearing in main.go. -/
inductive Level
  | info
  | warning
deriving DecidableEq, Repr

/-- Value of a structured log field: a Go string or a raw byte array
(logrus field values in main.go are strings, addresses rendered as strings,
and the raw 32-byte array produced by sha256.Sum256). -/
inductive FieldVal
  | str (s : String)
  | bytes (b : List Nat)
deriving DecidableEq, Repr

/-- Structured fields of one log record, in source order. -/
abbrev Fields := List (String × FieldVal)

/-- Kinds of goroutine tasks spawned with a go statement in main.go, together
with the arguments the go statement passes. Streams are modelled as the finite
lists of event identifiers they deliver before the socket closes. -/
inductive TaskKind
  | handleConnTask (remoteAddr : String)
  | requestHandle (remoteAddr : String) (category : String) (stream : List Nat)
  | channelHandle (remoteAddr : String) (channel : Nat)
deriving DecidableEq, Repr

/-- Observable events of the embedded program. writeFile never occurs in any
trace the embedding produces; it is in the alphabet so that the absence of key
persistence is a statable property. fatalExit models log.Fatal, which logs and
terminates the process. -/
inductive Ev
  | log (lvl : Level) (msg : String) (fields : Fields)
  | spawn (t : TaskKind)
  | closeSocket
  | writeFile (path : String) (contents : List Nat)
  | fatalExit (msg : String)
deriving DecidableEq, Repr

/-- Connection metadata exposed by the ssh library during authentication:
remote address, attempted user name, client version string. -/
structure ConnMetadata where
  remoteAddr : String
  user : String
  clientVersion : String
deriving DecidableEq, Repr

/-- An ssh.Signer as far as main.go observes it: the public-key algorithm name
and the SSH wire-format marshaling of the public key. -/
structure Signer where
  algo : String
  pubMarshal : List Nat
deriving DecidableEq, Repr

/-- Outcomes of the external library calls made during key provisioning,
supplied as oracles: ioutil.ReadFile, ssh.ParsePrivateKey,
ed25519.GenerateKey (its private-key result), ssh.NewSignerFromSigner,
and sha256.Sum256. -/
structure KeyOracles where
  readFile : String → Except String (List Nat)
  parsePrivateKey : List Nat → Except String Signer
  ed25519Generate : Except String (List Nat)
  newSignerFromSigner : List Nat → Except String Signer
  sha256Sum256 : List Nat → List Nat

/-- Shallow embedding of the PasswordCallback closure (main.go lines 55-63).
Password bytes are modelled as the Go string the code logs. The result pairs
the emitted log records with the returned (permissions, error) values, where
Go nil permissions and nil error are both modelled as none. -/
def PasswordCallback (conn : ConnMetadata) (password : String) :
    List Ev × (Option Unit × Option String) :=
  ([Ev.log .info "Password authentication accepted"
      [("client", .str conn.remoteAddr),
       ("user", .str conn.user),
       ("password", .str password),
       ("version", .str conn.clientVersion)]],
   (none, none))

/-- Result of a successful ssh.NewServerConn handshake: the global-request
stream and the channel stream, each modelled as the finite list of events
delivered before the socket closes. -/
structure HandshakeResult where
  requests : List Nat
  channels : List Nat
deriving DecidableEq, Repr

/-- Spawn events of the for-range loop over the channel stream (main.go lines
100-102): one channel.Handle task per opened channel, in stream order. -/
def channelSpawns (remoteAddr : String) (channels : List Nat) : List Ev :=
  channels.map fun c => Ev.spawn (.channelHandle remoteAddr c)

/-- Shallow embedding of handleConn (main.go lines 89-106). The handshake
outcome of ssh.NewServerConn is an input. The deferred conn.Close runs on
every exit path, so closeSocket is the final event of both branches. -/
def handleConn (remoteAddr : String) (handshake : Except String HandshakeResult) :
    List Ev :=
  match handshake with
  | .error e =>
      [Ev.log .warning ("Failed to establish SSH connection:" ++ e) [],
       Ev.closeSocket]
  | .ok r =>
      [Ev.log .info "SSH connection established" [("client", .str remoteAddr)],
       Ev.spawn (.requestHandle remoteAddr "global" r.requests)]
      ++ channelSpawns remoteAddr r.channels
      ++ [Ev.log .info "Client disconnected" [("client", .str remoteAddr)],
          Ev.closeSocket]

/-- Outcome of one listener.Accept call: an error or the remote address of the
accepted connection. -/
abbrev AcceptResult := Except String String

/-- Shallow embedding of one iteration of the accept loop (main.go lines
76-86): a failed accept logs a warning and the loop continues; a successful
accept logs the client address and spawns a handleConn task. -/
def acceptStep (a : AcceptResult) : List Ev :=
  match a with
  | .error e => [Ev.log .warning ("Failed to accept connection:" ++ e) []]
  | .ok addr =>
      [Ev.log .info "Client connected" [("client", .str addr)],
       Ev.spawn (.handleConnTask addr)]

/-- Shallow embedding of the accept loop over a finite prefix of Accept
outcomes. -/
def acceptLoop (accepts : List AcceptResult) : List Ev :=
  accepts.flatMap acceptStep

/-- Shallow embedding of the key-provisioning block of main (main.go lines
28-51). A log.Fatal path returns error with the fatal event; success returns
the signer and the events emitted on the way (the ephemeral-key warning, or
nothing on the file path). -/
def provisionKey (hostKeyFlag : String) (o : KeyOracles) :
    Except (List Ev) (Signer × List Ev) :=
  if hostKeyFlag ≠ "" then
    match o.readFile hostKeyFlag with
    | .error e => .error [Ev.fatalExit ("Failed to read host key:" ++ e)]
    | .ok keyBytes =>
      match o.parsePrivateKey keyBytes with
      | .error e => .error [Ev.fatalExit ("Failed to parse host key:" ++ e)]
      | .ok key => .ok (key, [])
  else
    match o.ed25519Generate with
    | .error e =>
        .error [Ev.fatalExit ("Failed to generate temporary private key:" ++ e)]
    | .ok keyBytes =>
      match o.newSignerFromSigner keyBytes with
      | .error e =>
          .error [Ev.fatalExit ("Failed to parse generated private key:" ++ e)]
      | .ok key =>
        .ok (key,
          [Ev.log .warning
            "Using a temporary host key, consider creating a permanent one and passing it to -host_key"
            [("sha256_fingerprint", .bytes (o.sha256Sum256 key.pubMarshal))]])

/-- Events emitted by key provisioning, on either outcome. -/
def provisionEvents (hostKeyFlag : String) (o : KeyOracles) : List Ev :=
  match provisionKey hostKeyFlag o with
  | .error evs => evs
  | .ok (_, evs) => evs

/-- Shallow embedding of main after flag parsing (main.go lines 28-87):
key provisioning, then net.Listen (outcome an oracle: error or bound address),
then the Listening record and the accept loop. A fatal event ends the trace. -/
def runMain (hostKeyFlag : String) (o : KeyOracles)
    (listen : Except String String) (accepts : List AcceptResult) : List Ev :=
  match provisionKey hostKeyFlag o with
  | .error evs => evs
  | .ok (_, evs) =>
    evs ++
    match listen with
    | .error e => [Ev.fatalExit ("Failed to listen:" ++ e)]
    | .ok addr =>
        Ev.log .info "Listening" [("listen_address", .str addr)]
          :: acceptLoop accepts

/-- Number of go statements executed in a trace. -/
def spawnCount (evs : List Ev) : Nat :=
  (evs.filter fun e =>
    match e with
    | Ev.spawn _ => true
    | _ => false).length

/-- Log records of a trace, in order. -/
def logsOf (evs : List Ev) : List Ev :=
  evs.filter fun e =>
    match e with
    | Ev.log _ _ _ => true
    | _ => false

/-- Oracle instance for concrete evaluation: reading the key file fails,
generation would succeed. -/
def oracleMissingFile : KeyOracles where
  readFile := fun _ => .error "no such file or directory"
  parsePrivateKey := fun _ => .error "ssh: no key found"
  ed25519Generate := .ok [1, 2, 3]
  newSignerFromSigner := fun b => .ok ⟨"ssh-ed25519", b⟩
  sha256Sum256 := fun _ => List.replicate 32 0

/-- Oracle instance for concrete evaluation: every library call succeeds. -/
def oracleGenOk : KeyOracles :=
  { oracleMissingFile with readFile := fun _ => .ok [9] }

lemma spawnCount_append (a b : List Ev) :
    spawnCount (a ++ b) = spawnCount a + spawnCount b := by
  simp [spawnCount, List.filter_append]

lemma spawnCount_channelSpawns (addr : String) (l : List Nat) :
    spawnCount (channelSpawns addr l) = l.length := by
  induction l with
  | nil => simp [channelSpawns, spawnCount]
  | cons c cs ih =>
      simp [channelSpawns, spawnCount, List.filter] at ih ⊢
      exact ih

lemma filter_channelSpawns_eq_nil (addr : String) (l : List Nat) (p : Ev → Bool)
    (h : ∀ a c, p (Ev.spawn (TaskKind.channelHandle a c)) = false) :
    (channelSpawns addr l).filter p = [] := by
  simp [channelSpawns, List.filter, h]

lemma handleConn_error_eq (addr e : String) :
    handleConn addr (.error e) =
      [Ev.log .warning ("Failed to establish SSH connection:" ++ e) [],
       Ev.closeSocket] := rfl

lemma handleConn_ok_eq (addr : String) (r : HandshakeResult) :
    handleConn addr (.ok r) =
      [Ev.log .info "SSH connection established" [("client", .str addr)],
       Ev.spawn (.requestHandle addr "global" r.requests)]
      ++ (channelSpawns addr r.channels
        ++ [Ev.log .info "Client disconnected" [("client", .str addr)],
            Ev.closeSocket]) := rfl

lemma mem_channelSpawns (addr : String) (l : List Nat) (e : Ev) :
    e ∈ channelSpawns addr l ↔ ∃ c ∈ l, e = Ev.spawn (.channelHandle addr c) := by
  simp [channelSpawns, List.mem_map, eq_comm]

/-- C1: every password-authentication attempt, with any username and any
password (including empty), returns accepted with nil permissions and nil
error, and emits exactly one structured log record containing the exact
client address, username, password, and client version supplied. -/
theorem C1_password_auth_always_accepted (conn : ConnMetadata) (password : String) :
    (PasswordCallback conn password).2 = (none, none) ∧
    ∃ f : Fields,
      (PasswordCallback conn password).1 =
        [Ev.log .info "Password authentication accepted" f] ∧
      ("client", FieldVal.str conn.remoteAddr) ∈ f ∧
      ("user", FieldVal.str conn.user) ∈ f ∧
      ("password", FieldVal.str password) ∈ f ∧
      ("version", FieldVal.str conn.clientVersion) ∈ f := by
  refine ⟨rfl, _, rfl, ?_, ?_, ?_, ?_⟩ <;> simp

/-- C2 counterexample: a connection whose handshake succeeds with no opened
channels starts exactly one further concurrent task, not two; the channel
dispatch loop runs inline in the per-connection task rather than in a spawned
task. -/
theorem C2_counterexample :
    ¬ spawnCount (handleConn "127.0.0.1:50000" (.ok ⟨[], []⟩)) =
        2 + ([] : List Nat).length := by
  decide

/-- C2 (amended): one concurrent task is spawned from the accept loop per
accepted connection; for every connection whose handshake succeeds, exactly
one further concurrent task is started (global-request dispatch) plus one per
opened channel, the channel dispatch loop itself running inline in the
per-connection task, so each opened channel is delegated in its own task and
a slow or stuck channel handler never blocks delivery of subsequent
channels. -/
theorem C2_amended_task_structure (addr : String) (r : HandshakeResult)
    (accepts : List AcceptResult) :
    spawnCount (handleConn addr (.ok r)) = 1 + r.channels.length ∧
    Ev.spawn (.requestHandle addr "global" r.requests) ∈ handleConn addr (.ok r) ∧
    (∀ c ∈ r.channels,
      Ev.spawn (.channelHandle addr c) ∈ handleConn addr (.ok r)) ∧
    (∀ a : String, Except.ok a ∈ accepts →
      Ev.spawn (.handleConnTask a) ∈ acceptLoop accepts) := by
  refine ⟨?_, ?_, ?_, ?_⟩
  · rw [handleConn_ok_eq, spawnCount_append, spawnCount_append,
      spawnCount_channelSpawns]
    simp [spawnCount, List.filter]
  · simp [handleConn]
  · intro c hc
    rw [handleConn_ok_eq]
    refine List.mem_append.mpr (Or.inr (List.mem_append.mpr (Or.inl ?_)))
    exact (mem_channelSpawns addr r.channels _).mpr ⟨c, hc, rfl⟩
  · intro a ha
    refine List.mem_flatMap.mpr ⟨Except.ok a, ha, ?_⟩
    simp [acceptStep]

/-- C2 witness: concrete instantiation of the amended task-structure theorem
with one request, two channels and one accepted connection. -/
theorem C2_amended_task_structure_witness :
    spawnCount (handleConn "a" (.ok (HandshakeResult.mk [5] [7, 8]))) = 1 + 2 ∧
    Ev.spawn (.channelHandle "a" 7)
      ∈ handleConn "a" (.ok (HandshakeResult.mk [5] [7, 8])) ∧
    Ev.spawn (.handleConnTask "b") ∈ acceptLoop [Except.ok "b"] :=
  ⟨(C2_amended_task_structure "a" (HandshakeResult.mk [5] [7, 8])
      [Except.ok "b"]).1,
   (C2_amended_task_structure "a" (HandshakeResult.mk [5] [7, 8])
      [Except.ok "b"]).2.2.1 7 (by simp),
   (C2_amended_task_structure "a" (HandshakeResult.mk [5] [7, 8])
      [Except.ok "b"]).2.2.2 "b" (by simp)⟩

/-- C3: a connection whose handshake fails produces exactly a warning log and
a socket close, the close is the final event on every exit path of
handleConn, and the failure neither terminates the process nor spawns any
further task. -/
theorem C3_handshake_failure_isolated (addr e : String) :
    handleConn addr (.error e) =
      [Ev.log .warning ("Failed to establish SSH connection:" ++ e) [],
       Ev.closeSocket] ∧
    (∀ hs : Except String HandshakeResult,
      (handleConn addr hs).getLast? = some Ev.closeSocket) ∧
    (∀ m, Ev.fatalExit m ∉ handleConn addr (.error e)) ∧
    (∀ t, Ev.spawn t ∉ handleConn addr (.error e)) := by
  refine ⟨rfl, ?_, ?_, ?_⟩
  · intro hs
    cases hs with
    | error e' => rfl
    | ok r =>
        rw [handleConn_ok_eq, List.getLast?_append_of_ne_nil _ (by simp),
          List.getLast?_append_of_ne_nil _ (by simp)]
        rfl
  · intro m
    simp [handleConn]
  · intro t
    simp [handleConn]

/-- C3 witness: concrete instantiation of the handshake-failure theorem. -/
theorem C3_handshake_failure_isolated_witness :
    handleConn "c" (.error "ssh: no auth") =
      [Ev.log .warning ("Failed to establish SSH connection:" ++ "ssh: no auth") [],
       Ev.closeSocket] ∧
    (handleConn "c" (.ok ⟨[], [4]⟩)).getLast? = some Ev.closeSocket :=
  ⟨(C3_handshake_failure_isolated "c" "ssh: no auth").1,
   (C3_handshake_failure_isolated "c" "ssh: no auth").2.1 (.ok ⟨[], [4]⟩)⟩

/-- C5: an accept error is logged at warning level and the accept loop
continues, processing every later accept outcome exactly as it would have
without the error. -/
theorem C5_accept_loop_survives_errors (xs ys : List AcceptResult) (e : String) :
    acceptLoop (xs ++ Except.error e :: ys) =
      acceptLoop xs
        ++ Ev.log .warning ("Failed to accept connection:" ++ e) []
          :: acceptLoop ys := by
  simp [acceptLoop, acceptStep]

lemma filter_channelSpawns_log_eq_nil (a : String) (l : List Nat)
    (lvl : Level) (m : String) (f : Fields) :
    (channelSpawns a l).filter (fun ev => decide (ev = Ev.log lvl m f)) = [] :=
  filter_channelSpawns_eq_nil a l _ (fun _ _ => by simp)

/-- C7: for every connection that reaches the established state, the trace
ends with the deferred socket close, immediately preceded by exactly one
Client disconnected info record carrying the remote address, and that record
comes after every channel delivered by the (socket-close-terminated) channel
stream. -/
theorem C7_client_disconnected_on_close (addr : String) (r : HandshakeResult) :
    (handleConn addr (.ok r)).getLast? = some Ev.closeSocket ∧
    (∃ pre, handleConn addr (.ok r) =
        pre ++ [Ev.log .info "Client disconnected" [("client", .str addr)],
                Ev.closeSocket] ∧
      ∀ c ∈ r.channels, Ev.spawn (.channelHandle addr c) ∈ pre) ∧
    ((handleConn addr (.ok r)).filter
        (fun ev => decide (ev = Ev.log .info "Client disconnected"
          [("client", FieldVal.str addr)]))).length = 1 := by
  refine ⟨?_, ?_, ?_⟩
  · rw [handleConn_ok_eq, List.getLast?_append_of_ne_nil _ (by simp),
      List.getLast?_append_of_ne_nil _ (by simp)]
    rfl
  · refine ⟨[Ev.log .info "SSH connection established" [("client", .str addr)],
      Ev.spawn (.requestHandle addr "global" r.requests)]
      ++ channelSpawns addr r.channels, ?_, ?_⟩
    · rw [handleConn_ok_eq, List.append_assoc]
    · intro c hc
      exact List.mem_append.mpr
        (Or.inr ((mem_channelSpawns addr r.channels _).mpr ⟨c, hc, rfl⟩))
  · rw [handleConn_ok_eq, List.filter_append, List.filter_append,
      filter_channelSpawns_log_eq_nil]
    simp [List.filter]

/-- C7 witness: concrete instantiation of the client-disconnected theorem. -/
theorem C7_client_disconnected_on_close_witness :
    (handleConn "a" (.ok (HandshakeResult.mk [] [2]))).getLast?
      = some Ev.closeSocket ∧
    ((handleConn "a" (.ok (HandshakeResult.mk [] [2]))).filter
        (fun ev => decide (ev = Ev.log .info "Client disconnected"
          [("client", FieldVal.str "a")]))).length = 1 :=
  ⟨(C7_client_disconnected_on_close "a" (HandshakeResult.mk [] [2])).1,
   (C7_client_disconnected_on_close "a" (HandshakeResult.mk [] [2])).2.2⟩

/-- Predicate picking out the go request.Handle spawn events of a trace. -/
def isRequestSpawn : Ev → Bool
  | Ev.spawn (TaskKind.requestHandle _ _ _) => true
  | _ => false

/-- C8: for every established connection, exactly one request.Handle task is
spawned, and it receives the remote address of the connection, the fixed
category label global, and the global-request stream of the connection. -/
theorem C8_request_dispatch_once (addr : String) (r : HandshakeResult) :
    (handleConn addr (.ok r)).filter isRequestSpawn
      = [Ev.spawn (.requestHandle addr "global" r.requests)] := by
  rw [handleConn_ok_eq, List.filter_append, List.filter_append,
    filter_channelSpawns_eq_nil addr r.channels isRequestSpawn
      (fun _ _ => rfl)]
  simp [List.filter, isRequestSpawn]

/-- C9: a connection whose handshake fails never produces a Client
disconnected record: its whole trace logs exactly the handshake-failure
warning, the Client connected record having been emitted by the accept loop
before the handshake was attempted; a Client disconnected record occurs only
for handshakes that returned an established session. -/
theorem C9_no_disconnect_after_failed_handshake (addr e : String) :
    (∀ f : Fields,
      Ev.log .info "Client disconnected" f ∉ handleConn addr (.error e)) ∧
    logsOf (handleConn addr (.error e)) =
      [Ev.log .warning ("Failed to establish SSH connection:" ++ e) []] ∧
    (∀ a : String, acceptStep (.ok a) =
      [Ev.log .info "Client connected" [("client", .str a)],
       Ev.spawn (.handleConnTask a)]) ∧
    (∀ hs : Except String HandshakeResult, ∀ f : Fields,
      Ev.log .info "Client disconnected" f ∈ handleConn addr hs →
        ∃ r, hs = .ok r) := by
  refine ⟨?_, ?_, ?_, ?_⟩
  · intro f
    simp [handleConn]
  · rfl
  · intro a
    rfl
  · intro hs f hmem
    cases hs with
    | error e' =>
        rw [handleConn_error_eq] at hmem
        simp at hmem
    | ok r => exact ⟨r, rfl⟩

/-- C9 witness: concrete instantiation of the failed-handshake theorem. -/
theorem C9_no_disconnect_after_failed_handshake_witness :
    Ev.log .info "Client disconnected" [("client", FieldVal.str "c")]
      ∉ handleConn "c" (.error "eof") ∧
    (∃ r, (Except.ok (HandshakeResult.mk [] []) :
        Except String HandshakeResult) = .ok r) :=
  ⟨(C9_no_disconnect_after_failed_handshake "c" "eof").1
      [("client", FieldVal.str "c")],
   (C9_no_disconnect_after_failed_handshake "c" "eof").2.2.2
      (.ok (HandshakeResult.mk [] [])) [("client", FieldVal.str "c")]
      (by rw [handleConn_ok_eq]; simp)⟩

lemma provisionKey_error_shape (flag : String) (o : KeyOracles) (evs : List Ev)
    (h : provisionKey flag o = .error evs) : ∃ m, evs = [Ev.fatalExit m] := by
  unfold provisionKey at h
  split at h
  · split at h
    · exact ⟨_, (Except.error.inj h).symm⟩
    · split at h
      · exact ⟨_, (Except.error.inj h).symm⟩
      · exact absurd h (by simp)
  · split at h
    · exact ⟨_, (Except.error.inj h).symm⟩
    · split at h
      · exact ⟨_, (Except.error.inj h).symm⟩
      · exact absurd h (by simp)

lemma provisionKey_ok_evs (flag : String) (o : KeyOracles) (key : Signer)
    (evs : List Ev) (h : provisionKey flag o = .ok (key, evs)) :
    evs = [] ∨ ∃ fp, evs =
      [Ev.log .warning
        "Using a temporary host key, consider creating a permanent one and passing it to -host_key"
        [("sha256_fingerprint", FieldVal.bytes fp)]] := by
  unfold provisionKey at h
  split at h
  · split at h
    · exact absurd h (by simp)
    · split at h
      · exact absurd h (by simp)
      · have hpair := Except.ok.inj h
        rw [Prod.mk.injEq] at hpair
        exact Or.inl hpair.2.symm
  · split at h
    · exact absurd h (by simp)
    · split at h
      · exact absurd h (by simp)
      · have hpair := Except.ok.inj h
        rw [Prod.mk.injEq] at hpair
        exact Or.inr ⟨_, hpair.2.symm⟩

/-- C4: with a host-key path, the file bytes are read and parsed and either
failure is fatal; with no path, a key is generated (failure fatal) and
exactly one warning record carrying the SHA-256 fingerprint of the generated
public key is emitted; no key file is ever written. -/
theorem C4_key_provisioning (flag : String) (o : KeyOracles) :
    (∀ e, flag ≠ "" → o.readFile flag = .error e →
      provisionKey flag o =
        .error [Ev.fatalExit ("Failed to read host key:" ++ e)]) ∧
    (∀ b e, flag ≠ "" → o.readFile flag = .ok b →
        o.parsePrivateKey b = .error e →
      provisionKey flag o =
        .error [Ev.fatalExit ("Failed to parse host key:" ++ e)]) ∧
    (∀ e, o.ed25519Generate = .error e →
      provisionKey "" o =
        .error [Ev.fatalExit ("Failed to generate temporary private key:" ++ e)]) ∧
    (∀ b key, o.ed25519Generate = .ok b → o.newSignerFromSigner b = .ok key →
      provisionKey "" o = .ok (key,
        [Ev.log .warning
          "Using a temporary host key, consider creating a permanent one and passing it to -host_key"
          [("sha256_fingerprint", .bytes (o.sha256Sum256 key.pubMarshal))]])) ∧
    (∀ p c, Ev.writeFile p c ∉ provisionEvents flag o) := by
  refine ⟨?_, ?_, ?_, ?_, ?_⟩
  · intro e hf hr
    simp only [provisionKey, if_pos hf, hr]
  · intro b e hf hr hp
    simp only [provisionKey, if_pos hf, hr, hp]
  · intro e hg
    simp [provisionKey, hg]
  · intro b key hg hs
    simp [provisionKey, hg, hs]
  · intro p c
    unfold provisionEvents
    cases hpk : provisionKey flag o with
    | error evs =>
        obtain ⟨m, rfl⟩ := provisionKey_error_shape flag o evs hpk
        simp
    | ok pr =>
        obtain ⟨key, evs⟩ := pr
        rcases provisionKey_ok_evs flag o key evs hpk with rfl | ⟨fp, rfl⟩
        · simp
        · simp

/-- C4 witness: with a concrete oracle whose file read fails, provisioning a
key from a path is fatal with the read-failure message. -/
theorem C4_key_provisioning_witness :
    (("k" : String) ≠ "" ∧
      oracleMissingFile.readFile "k" = .error "no such file or directory") ∧
    provisionKey "k" oracleMissingFile =
      .error [Ev.fatalExit
        ("Failed to read host key:" ++ "no such file or directory")] :=
  ⟨⟨by decide, rfl⟩,
   (C4_key_provisioning "k" oracleMissingFile).1 "no such file or directory"
     (by decide) rfl⟩

/-- C6: every fatal startup error, key provisioning or listen bind, makes the
whole run end at a fatal event with no task ever spawned, no client ever
accepted and no Listening record emitted. -/
theorem C6_fatal_startup_halts (flag : String) (o : KeyOracles)
    (listen : Except String String) (accepts : List AcceptResult)
    (h : (∃ evs, provisionKey flag o = .error evs) ∨ ∃ e, listen = .error e) :
    (∃ pre m, runMain flag o listen accepts = pre ++ [Ev.fatalExit m]) ∧
    (∀ t, Ev.spawn t ∉ runMain flag o listen accepts) ∧
    (∀ f, Ev.log .info "Client connected" f ∉ runMain flag o listen accepts) ∧
    (∀ f, Ev.log .info "Listening" f ∉ runMain flag o listen accepts) := by
  cases hpk : provisionKey flag o with
  | error evs =>
      obtain ⟨m, rfl⟩ := provisionKey_error_shape flag o evs hpk
      have hrm : runMain flag o listen accepts = [Ev.fatalExit m] := by
        unfold runMain
        rw [hpk]
      refine ⟨⟨[], m, by simp [hrm]⟩, ?_, ?_, ?_⟩ <;> intro x <;> simp [hrm]
  | ok pr =>
      obtain ⟨key, evs⟩ := pr
      rcases h with ⟨evs', h'⟩ | ⟨e, rfl⟩
      · rw [hpk] at h'
        exact absurd h' (by simp)
      · have hrm : runMain flag o (.error e) accepts =
            evs ++ [Ev.fatalExit ("Failed to listen:" ++ e)] := by
          unfold runMain
          rw [hpk]
        rcases provisionKey_ok_evs flag o key evs hpk with rfl | ⟨fp, rfl⟩
        · refine ⟨⟨[], _, hrm⟩, ?_, ?_, ?_⟩ <;> intro x <;>
            simp [hrm]
        · refine ⟨⟨_, _, hrm⟩, ?_, ?_, ?_⟩ <;> intro x <;> simp [hrm]

/-- C6 witness: with a concrete oracle whose file read fails, the whole run
is a single fatal event. -/
theorem C6_fatal_startup_halts_witness :
    ((∃ evs, provisionKey "k" oracleMissingFile = .error evs) ∨
      ∃ e, (Except.ok "a" : Except String String) = .error e) ∧
    (∃ pre m, runMain "k" oracleMissingFile (Except.ok "a") [Except.ok "c"] =
      pre ++ [Ev.fatalExit m]) :=
  ⟨Or.inl ⟨[Ev.fatalExit
      ("Failed to read host key:" ++ "no such file or directory")], rfl⟩,
   (C6_fatal_startup_halts "k" oracleMissingFile (Except.ok "a")
      [Except.ok "c"]
      (Or.inl ⟨[Ev.fatalExit
        ("Failed to read host key:" ++ "no such file or directory")], rfl⟩)).1⟩

/-- C10: when no host-key path is supplied and the library calls behave as
ed25519.GenerateKey, ssh.NewSignerFromSigner and sha256.Sum256 do (an
Ed25519 signer is produced, digests are 32 bytes), the provisioned ephemeral
identity is an Ed25519 key and the logged fingerprint field is the raw
32-byte SHA-256 digest of the SSH wire-format marshaling of its public
key. -/
theorem C10_ephemeral_key_ed25519_fingerprint (o : KeyOracles) (key : Signer)
    (evs : List Ev)
    (hsigner : ∀ b s, o.newSignerFromSigner b = .ok s → s.algo = "ssh-ed25519")
    (h32 : ∀ b, (o.sha256Sum256 b).length = 32)
    (hok : provisionKey "" o = .ok (key, evs)) :
    key.algo = "ssh-ed25519" ∧
    evs = [Ev.log .warning
      "Using a temporary host key, consider creating a permanent one and passing it to -host_key"
      [("sha256_fingerprint", FieldVal.bytes (o.sha256Sum256 key.pubMarshal))]] ∧
    (o.sha256Sum256 key.pubMarshal).length = 32 := by
  have hne : ¬ ("" : String) ≠ "" := by simp
  unfold provisionKey at hok
  rw [if_neg hne] at hok
  split at hok
  · exact absurd hok (by simp)
  · split at hok
    · exact absurd hok (by simp)
    · rename_i k hs
      have hpair := Except.ok.inj hok
      rw [Prod.mk.injEq] at hpair
      obtain ⟨hk, he⟩ := hpair
      subst hk
      exact ⟨hsigner _ k hs, he.symm, h32 k.pubMarshal⟩

/-- C10 witness: concrete instantiation with an oracle whose library calls
succeed. -/
theorem C10_ephemeral_key_ed25519_fingerprint_witness :
    (Signer.mk "ssh-ed25519" [1, 2, 3]).algo = "ssh-ed25519" ∧
    (oracleGenOk.sha256Sum256 (Signer.mk "ssh-ed25519" [1, 2, 3]).pubMarshal).length
      = 32 :=
  ⟨(C10_ephemeral_key_ed25519_fingerprint oracleGenOk
      (Signer.mk "ssh-ed25519" [1, 2, 3])
      [Ev.log .warning
        "Using a temporary host key, consider creating a permanent one and passing it to -host_key"
        [("sha256_fingerprint", FieldVal.bytes (List.replicate 32 0))]]
      (by intro b s h; injection h with h; subst h; rfl)
      (by intro b; simp [oracleGenOk, oracleMissingFile])
      rfl).1,
   (C10_ephemeral_key_ed25519_fingerprint oracleGenOk
      (Signer.mk "ssh-ed25519" [1, 2, 3])
      [Ev.log .warning
        "Using a temporary host key, consider creating a permanent one and passing it to -host_key"
        [("sha256_fingerprint", FieldVal.bytes (List.replicate 32 0))]]
      (by intro b s h; injection h with h; subst h; rfl)
      (by intro b; simp [oracleGenOk, oracleMissingFile])
      rfl).2.2⟩

end Sshesame

